import Mathlib

/-!
Verification of the ClimaSphere weather pipeline, embedded from
src/frontend/src/components/WeatherForecastCard.jsx.

Embedding conventions:
- JS numbers in the sanitize/merge layer are modelled as rationals; the
  risk-scoring layer, which uses exp, log, sin, cos and fractional powers,
  is modelled over the reals.
- A JS value that may be null or undefined is an Option.
- Math.round x is modelled as the floor of x + 1/2, which is how JS rounds
  (ties go toward positive infinity).
- Network effects are made explicit: a fetch outcome is passed in as an
  Option argument (none when the HTTP request failed), and the stream of
  Math.random() draws is passed in as a function from call index to value.
- The risk scorer is modelled twice: once with total real operations (the
  idealization used where all values are finite), and once over the JS
  number domain with NaN and the infinities explicit (JsNum below), which
  captures the NaN path that the unsanitized POWER sentinels can reach in
  computeLocalRiskFallback.
-/

namespace ClimaSphere

/-- JS Math.round on rationals: floor of x + 1/2. -/
def jsRoundQ (x : ℚ) : ℤ := ⌊x + 1/2⌋

/-- Line 21: sentinel test for NASA POWER placeholder values:
v === -999 || v === -5994. -/
def isInvalidPowerValue (v : ℚ) : Bool := v == -999 || v == -5994

/-- Sanitization pattern applied to each raw POWER field (lines 307-318,
330-332): isInvalidPowerValue(raw) ? null : (raw ?? null). -/
def sanitizePower (raw : Option ℚ) : Option ℚ :=
  match raw with
  | none => none
  | some v => if isInvalidPowerValue v then none else some v

/-- Line 352: merged temperature. owCurrent.temp (live OneCall current) wins,
then oeTemp (simple current fetch), then the POWER reanalysis hourly value;
each tier is passed through Math.round. -/
def mergeTemp (ow oe power : Option ℚ) : Option ℤ :=
  match ow with
  | some v => some (jsRoundQ v)
  | none =>
    match oe with
    | some v => some (jsRoundQ v)
    | none => power.map jsRoundQ

/-- Line 353: merged humidity, same precedence chain as temperature. -/
def mergeHumidity (ow oe power : Option ℚ) : Option ℤ :=
  match ow with
  | some v => some (jsRoundQ v)
  | none =>
    match oe with
    | some v => some (jsRoundQ v)
    | none => power.map jsRoundQ

/-- Line 354: merged wind speed; Number() conversions are the identity on
numeric values, so no rounding happens on this field. -/
def mergeWind (ow oe power : Option ℚ) : Option ℚ :=
  match ow with
  | some v => some v
  | none =>
    match oe with
    | some v => some v
    | none => power

/-- Line 355: merged UV index; live OneCall uvi, then the OpenWeather-derived
uv, then the POWER daily value, then the POWER hourly value. -/
def mergeUv (ow oe daily hourly : Option ℚ) : Option ℤ :=
  match ow with
  | some v => some (jsRoundQ v)
  | none =>
    match oe with
    | some v => some (jsRoundQ v)
    | none =>
      match daily with
      | some v => some (jsRoundQ v)
      | none => hourly.map jsRoundQ

/-! ## Local risk computation (computeLocalRiskFallback, lines 452-527) -/

/-- JS Math.round on reals: floor of x + 1/2. -/
noncomputable def jsRound (x : ℝ) : ℤ := ⌊x + 1/2⌋

/-- Line 442: clamp(v, min, max) = Math.max(min, Math.min(max, v)). -/
noncomputable def clamp (v lo hi : ℝ) : ℝ := max lo (min hi v)

/-- The per-hazard risk record: rounded center and uncertainty band. -/
structure RiskIndex where
  center : ℤ
  low : ℤ
  high : ℤ
deriving DecidableEq, Repr

/-- Lines 496-497 etc.: band construction around a center value, then
Math.round applied to each component (lines 518-521). -/
noncomputable def mkIndex (c : ℝ) : RiskIndex :=
  ⟨jsRound c, jsRound (clamp (c - 10) 0 100), jsRound (clamp (c + 10) 0 100)⟩

/-- Line 470: daily mean temperature: hourly average when hourly data exists,
else the (tmax+tmin)/2 midpoint when both are present, else null. -/
noncomputable def tmeanOf (temps : List ℝ) (tmax tmin : Option ℝ) : Option ℝ :=
  match temps with
  | [] =>
    match tmax, tmin with
    | some a, some b => some ((a + b) / 2)
    | _, _ => none
  | _ => some (temps.sum / temps.length)

/-- Line 471: wind proxy: hourly average when present, else the hardcoded
fallback of about 3.5 m/s. -/
noncomputable def windMsOf (winds : List ℝ) : ℝ :=
  match winds with
  | [] => 3.5
  | _ => winds.sum / winds.length

/-- Lines 475-483: humidex via Magnus dew point; null when temperature or
humidity is null. This is the idealized real-number reading, with total log
and division; the JS extended-number semantics of the same lines, on which
Math.log of a negative unsanitized sentinel is NaN, is humidexJs below and
is what settles C1. -/
noncomputable def humidex (tmean rh : Option ℝ) : Option ℝ :=
  match tmean, rh with
  | some t, some r =>
    let a : ℝ := 17.27
    let b : ℝ := 237.7
    let alpha := a * t / (b + t) + Real.log (r / 100)
    let dew := b * alpha / (a - alpha)
    let e := 6.11 * Real.exp (5417.753 * (1 / 273.16 - 1 / (273.15 + dew)))
    some (t + 5 / 9 * (e - 10))
  | _, _ => none

/-- Line 490: the Canadian wind-chill formula body. -/
noncomputable def windChillValue (t windMs : ℝ) : ℝ :=
  13.12 + 0.6215 * t - 11.37 * (windMs * 3.6) ^ (0.16 : ℝ)
    + 0.3965 * t * (windMs * 3.6) ^ (0.16 : ℝ)

/-- Lines 486-491: wind chill; null when tmean is null, the raw temperature
when tmean > 10 or wind (km/h) <= 4.8, else the formula. -/
noncomputable def windChill (tmean : Option ℝ) (windMs : ℝ) : Option ℝ :=
  tmean.map fun t =>
    if t > 10 ∨ windMs * 3.6 ≤ 4.8 then t else windChillValue t windMs

/-- Line 495: heat center, 0 when humidex is null. -/
noncomputable def heatCenter : Option ℝ → ℝ
  | none => 0
  | some hx => 100 / (1 + Real.exp (-(hx - 35) / 2.5))

/-- Line 500: cold metric, 20 when wind chill is null, else 5 - windChill. -/
noncomputable def coldMetric : Option ℝ → ℝ
  | none => 20
  | some wc => 5 - wc

/-- Line 501: cold center. -/
noncomputable def coldCenter (wchill : Option ℝ) : ℝ :=
  100 / (1 + Real.exp (-(coldMetric wchill - 0) / 2.5))

/-- Line 506: wind center. -/
noncomputable def windCenter (w : ℝ) : ℝ :=
  100 / (1 + Real.exp (-(w - 10) / 1.5))

/-- Line 511: wet center, 0 when daily precipitation is null. -/
noncomputable def wetCenter : Option ℝ → ℝ
  | none => 0
  | some p => 100 / (1 + Real.exp (-(p - 2) / 2))

/-- The four named hazard indices (the indices field of the result object). -/
structure Indices where
  heat : RiskIndex
  cold : RiskIndex
  wind : RiskIndex
  wet : RiskIndex
deriving DecidableEq, Repr

/-- Lines 452-527: computeLocalRiskFallback. Inputs are the POWER daily
fields for the chosen date (tmax, tmin, rh, prec, all possibly null) and
the null-filtered hourly temperature and wind series; the meta block of the
result only carries constants and is omitted. -/
noncomputable def computeLocalRiskFallback (tmax tmin rh prec : Option ℝ)
    (temps winds : List ℝ) : Indices :=
  let tmean := tmeanOf temps tmax tmin
  let w := windMsOf winds
  let hum := humidex tmean rh
  let wc := windChill tmean w
  { heat := mkIndex (heatCenter hum)
    cold := mkIndex (coldCenter wc)
    wind := mkIndex (windCenter w)
    wet := mkIndex (wetCenter prec) }

/-- Modelled from the spec (section 4.6, for refinement comparison only):
the logistic curve 100 / (1 + e^(-(m - threshold)/scale)). -/
noncomputable def logisticSpec (m threshold scale : ℝ) : ℝ :=
  100 / (1 + Real.exp (-((m - threshold) / scale)))

/-! ## Share codec

shareRisk (lines 627-636) serializes a payload object of the date and the
four centers with JSON.stringify and btoa; parseHash (lines 220-234)
applies atob, JSON.parse and rebuilds the indices with bands center +- 10,
clamped by Math.max(0, .) and Math.min(100, .).

JSON.stringify and JSON.parse are platform builtins; they are modelled
here specialized to this fixed payload shape (object key order is the
insertion order d, h, c, w, r, string values escaped with backslash),
and btoa/atob are modelled as standard base64 over latin1 char codes,
returning none where the JS builtins would throw. -/

/-- The share payload object of shareRisk lines 628-634. -/
structure SharePayload where
  d : String
  h : ℤ
  c : ℤ
  w : ℤ
  r : ℤ
deriving DecidableEq, Repr

/-- parseHash lines 226-231: reconstruct the four indices from the parsed
payload: center is the stored value, low = Math.max(0, v-10),
high = Math.min(100, v+10). -/
def decodeIndices (p : SharePayload) : Indices :=
  { heat := ⟨p.h, max 0 (p.h - 10), min 100 (p.h + 10)⟩
    cold := ⟨p.c, max 0 (p.c - 10), min 100 (p.c + 10)⟩
    wind := ⟨p.w, max 0 (p.w - 10), min 100 (p.w + 10)⟩
    wet := ⟨p.r, max 0 (p.r - 10), min 100 (p.r + 10)⟩ }

/-- The decoded share state: the date (payload.d) and the rebuilt indices.
The constant meta fields (source "shared", the Sydney coordinates) are
omitted. -/
structure DecodedShare where
  date : String
  indices : Indices
deriving DecidableEq, Repr

/-- Clamping to the integer range 0..100 (the spec's band clamp). -/
def clamp100 (v : ℤ) : ℤ := max 0 (min 100 v)

/-- JSON string escaping as JSON.stringify performs it on the characters
appearing here: quote and backslash get a backslash prefix. -/
def escapeChars : List Char → List Char
  | [] => []
  | ch :: cs =>
    if ch = '"' ∨ ch = '\\' then '\\' :: ch :: escapeChars cs
    else ch :: escapeChars cs

/-- JSON string body parsing: consume characters up to the first unescaped
quote, dropping escape backslashes; none when the input ends first. -/
def parseStr : List Char → Option (List Char × List Char)
  | [] => none
  | ch :: cs =>
    if ch = '\\' then
      match cs with
      | [] => none
      | c2 :: cs2 => (parseStr cs2).map fun p => (c2 :: p.1, p.2)
    else if ch = '"' then some ([], cs)
    else (parseStr cs).map fun p => (ch :: p.1, p.2)

/-- Decimal digit test. -/
def isDigitCh (ch : Char) : Bool := decide ('0' ≤ ch) && decide (ch ≤ '9')

/-- Decimal digit value. -/
def digitVal (ch : Char) : Nat := ch.toNat - 48

/-- Accumulate a decimal number over leading digits. -/
def digitsLoop : List Char → Nat → Nat × List Char
  | [], acc => (acc, [])
  | ch :: cs, acc =>
    if isDigitCh ch then digitsLoop cs (acc * 10 + digitVal ch)
    else (acc, ch :: cs)

/-- Parse a nonempty run of decimal digits. -/
def parseNat : List Char → Option (Nat × List Char)
  | [] => none
  | ch :: cs => if isDigitCh ch then some (digitsLoop (ch :: cs) 0) else none

/-- Parse a JSON integer: optional minus sign, then digits. -/
def parseInt : List Char → Option (ℤ × List Char)
  | [] => none
  | ch :: cs =>
    if ch = '-' then (parseNat cs).map fun p => (-(p.1 : ℤ), p.2)
    else (parseNat (ch :: cs)).map fun p => ((p.1 : ℤ), p.2)

/-- Decimal rendering of a natural number, as JSON.stringify renders
integral JS numbers. -/
def natChars (n : Nat) : List Char :=
  if n = 0 then ['0']
  else (Nat.digits 10 n).reverse.map fun d => Char.ofNat (48 + d)

/-- Decimal rendering of an integer. -/
def intChars (i : ℤ) : List Char :=
  if i < 0 then '-' :: natChars i.natAbs else natChars i.toNat

/-- Consume an expected literal character sequence. -/
def expectChars : List Char → List Char → Option (List Char)
  | [], s => some s
  | _ :: _, [] => none
  | p :: ps, ch :: cs => if ch = p then expectChars ps cs else none

/-- Literal JSON fragments of the payload object, in insertion order. -/
def keyD : List Char := '\x7b' :: '"' :: 'd' :: '"' :: ':' :: '"' :: []

/-- Fragment before the h field. -/
def keyH : List Char := ',' :: '"' :: 'h' :: '"' :: ':' :: []

/-- Fragment before the c field. -/
def keyC : List Char := ',' :: '"' :: 'c' :: '"' :: ':' :: []

/-- Fragment before the w field. -/
def keyW : List Char := ',' :: '"' :: 'w' :: '"' :: ':' :: []

/-- Fragment before the r field. -/
def keyR : List Char := ',' :: '"' :: 'r' :: '"' :: ':' :: []

/-- Closing brace. -/
def keyEnd : List Char := '\x7d' :: []

/-- JSON.stringify of the payload object. -/
def jsonOfPayload (p : SharePayload) : List Char :=
  keyD ++ escapeChars p.d.data ++ '"' :: keyH ++ intChars p.h
    ++ keyC ++ intChars p.c ++ keyW ++ intChars p.w
    ++ keyR ++ intChars p.r ++ keyEnd

/-- JSON.parse specialized to the payload shape; none on any malformed or
incomplete input (parseHash treats that as no shared state). -/
def parsePayloadChars (s : List Char) : Option SharePayload :=
  (expectChars keyD s).bind fun s1 =>
  (parseStr s1).bind fun ds =>
  (expectChars keyH ds.2).bind fun s2 =>
  (parseInt s2).bind fun hs =>
  (expectChars keyC hs.2).bind fun s3 =>
  (parseInt s3).bind fun cs =>
  (expectChars keyW cs.2).bind fun s4 =>
  (parseInt s4).bind fun ws =>
  (expectChars keyR ws.2).bind fun s5 =>
  (parseInt s5).bind fun rs =>
  (expectChars keyEnd rs.2).bind fun tail =>
  if tail = [] then some ⟨String.mk ds.1, hs.1, cs.1, ws.1, rs.1⟩ else none

/-- Base64 alphabet, sextet to character. -/
def sixToChar (n : Nat) : Char :=
  if n < 26 then Char.ofNat (65 + n)
  else if n < 52 then Char.ofNat (97 + (n - 26))
  else if n < 62 then Char.ofNat (48 + (n - 52))
  else if n = 62 then '+' else '/'

/-- Base64 alphabet, character to sextet; none outside the alphabet. -/
def charToSix (ch : Char) : Option Nat :=
  if 'A' ≤ ch ∧ ch ≤ 'Z' then some (ch.toNat - 65)
  else if 'a' ≤ ch ∧ ch ≤ 'z' then some (ch.toNat - 71)
  else if '0' ≤ ch ∧ ch ≤ '9' then some (ch.toNat + 4)
  else if ch = '+' then some 62
  else if ch = '/' then some 63
  else none

/-- Base64 encoding of a byte list, with padding. -/
def b64 : List Nat → List Char
  | [] => []
  | [a] => [sixToChar (a / 4), sixToChar (a % 4 * 16), '=', '=']
  | [a, b] =>
    [sixToChar (a / 4), sixToChar (a % 4 * 16 + b / 16),
      sixToChar (b % 16 * 4), '=']
  | a :: b :: c :: rest =>
    sixToChar (a / 4) :: sixToChar (a % 4 * 16 + b / 16)
      :: sixToChar (b % 16 * 4 + c / 64) :: sixToChar (c % 64) :: b64 rest

/-- Base64 decoding; none on any input not produced by the encoder. -/
def unb64 : List Char → Option (List Nat)
  | [] => some []
  | c1 :: c2 :: c3 :: c4 :: rest =>
    (charToSix c1).bind fun a =>
    (charToSix c2).bind fun b =>
    if c3 = '=' then
      if c4 = '=' ∧ rest = [] then some [a * 4 + b / 16] else none
    else
      (charToSix c3).bind fun c =>
      if c4 = '=' then
        if rest = [] then some [a * 4 + b / 16, b % 16 * 16 + c / 4] else none
      else
        (charToSix c4).bind fun d =>
        (unb64 rest).map fun tl =>
          (a * 4 + b / 16) :: (b % 16 * 16 + c / 4) :: (c % 4 * 64 + d) :: tl
  | _ => none

/-- JS btoa: base64 over the char codes; JS throws (here: none) when a char
code exceeds 255. -/
def btoa (s : List Char) : Option (List Char) :=
  if s.all fun ch => decide (ch.toNat < 256) then some (b64 (s.map Char.toNat))
  else none

/-- JS atob composed with the char decoding used by the hash parser. -/
def atob (s : List Char) : Option (List Char) :=
  (unb64 s).map fun bs => bs.map Char.ofNat

/-- shareRisk lines 627-636: build the payload from the four centers and the
date, stringify, base64-encode. -/
def encodeShare (idx : Indices) (date : String) : Option String :=
  (btoa (jsonOfPayload
    ⟨date, idx.heat.center, idx.cold.center, idx.wind.center,
      idx.wet.center⟩)).map String.mk

/-- parseHash lines 220-234: base64-decode, parse, rebuild the indices. -/
def decodeShare (tok : String) : Option DecodedShare :=
  (atob tok.data).bind fun js =>
  (parsePayloadChars js).map fun p => ⟨p.d, decodeIndices p⟩

/-! ## Synthetic POWER data (generateMockPowerData, lines 103-129) -/

/-- The hourly parameter maps of a POWER response, keyed by YYYYMMDDHH. -/
structure PowerParams where
  T2M : List (String × ℝ)
  RH2M : List (String × ℝ)
  WS10M : List (String × ℝ)
  UV : List (String × ℝ)
  PRECTOTCORR : List (String × ℝ)

/-- Two-digit hour padding, String(hour).padStart(2, "0"). -/
def pad2 (h : Nat) : String := if h < 10 then "0" ++ toString h else toString h

/-- Line 119: hourly time key startDate + padded hour. -/
def timeKey (startDate : String) (h : Nat) : String := startDate ++ pad2 h

/-- Lines 103-129: the mock generator. rand is the stream of Math.random()
draws in call order; each loop iteration draws once for WS10M and once for
PRECTOTCORR, so hour h consumes draws 2h and 2h+1. -/
noncomputable def generateMockPowerData (startDate : String) (lat lon : ℝ)
    (rand : Nat → ℝ) : PowerParams :=
  { T2M := (List.range 24).map fun h =>
      (timeKey startDate h, 20 + Real.sin (h * 0.3) * 8 + lat * 0.1)
    RH2M := (List.range 24).map fun h =>
      (timeKey startDate h, 50 + Real.cos (h * 0.2) * 20 + lon * 0.1)
    WS10M := (List.range 24).map fun h =>
      (timeKey startDate h, 3 + rand (2 * h) * 5)
    UV := (List.range 24).map fun h =>
      (timeKey startDate h, max 0 (Real.sin (h * 0.2) * 6))
    PRECTOTCORR := (List.range 24).map fun h =>
      (timeKey startDate h, rand (2 * h + 1) * 2) }

/-- Lines 86-100: fetchPowerHourly. The network outcome is explicit: some
data when the HTTP fetch succeeded, none when it failed or threw, in which
case the mock generator's output is returned. -/
noncomputable def fetchPowerHourly (netResponse : Option PowerParams)
    (startDate : String) (lat lon : ℝ) (rand : Nat → ℝ) : PowerParams :=
  match netResponse with
  | some d => d
  | none => generateMockPowerData startDate lat lon rand

/-! ## Auxiliary predicates used in theorem statements -/

/-- A char list that does not start with a decimal digit. -/
def headNotDigit : List Char → Prop
  | [] => True
  | ch :: _ => isDigitCh ch = false

/-- How the hash decoder reconstructs one hazard index from one stored
payload value: the center is the stored value unvalidated, the bands are
clamped on one side each, so low is nonnegative, high is at most 100, and
the center lies in 0..100 exactly when the stored value does. -/
def decodedFieldOk (v : ℤ) (i : RiskIndex) : Prop :=
  i.center = v ∧ i.low = max 0 (v - 10) ∧ i.high = min 100 (v + 10) ∧
  0 ≤ i.low ∧ i.high ≤ 100 ∧
  (0 ≤ i.center ∧ i.center ≤ 100 ↔ 0 ≤ v ∧ v ≤ 100)

/-! ## JS extended-number semantics for the unsanitized heat path

computeLocalRiskFallback reads the POWER daily fields without applying
isInvalidPowerValue (lines 459-462), unlike getForecast, which sanitizes
the same daily map (lines 402-404). A sentinel such as RH2M = -999 thus
reaches the humidex computation, where Math.log of a negative number is
NaN, and NaN propagates through every arithmetic step, Math.min, Math.max
and Math.round, and makes every comparison false. The real-valued
definitions above cannot express this, so the heat path is re-embedded
below over the JS number domain with NaN and the two infinities explicit.
Idealizations kept: float rounding error, overflow to infinity, and the
sign of zero are not modelled. -/

/-- A JS number: an (idealized) finite value, NaN, or an infinity. -/
inductive JsNum where
  | num : ℝ → JsNum
  | nan : JsNum
  | posInf : JsNum
  | negInf : JsNum

/-- JS addition. -/
noncomputable def jsAdd : JsNum → JsNum → JsNum
  | .nan, _ => .nan
  | _, .nan => .nan
  | .num x, .num y => .num (x + y)
  | .posInf, .negInf => .nan
  | .negInf, .posInf => .nan
  | .posInf, _ => .posInf
  | _, .posInf => .posInf
  | .negInf, _ => .negInf
  | _, .negInf => .negInf

/-- JS negation. -/
noncomputable def jsNeg : JsNum → JsNum
  | .num x => .num (-x)
  | .nan => .nan
  | .posInf => .negInf
  | .negInf => .posInf

/-- JS subtraction: a - b behaves as a + (-b). -/
noncomputable def jsSub (a b : JsNum) : JsNum := jsAdd a (jsNeg b)

/-- JS multiplication. -/
noncomputable def jsMul : JsNum → JsNum → JsNum
  | .nan, _ => .nan
  | _, .nan => .nan
  | .num x, .num y => .num (x * y)
  | .num x, .posInf => if x = 0 then .nan else if 0 < x then .posInf else .negInf
  | .num x, .negInf => if x = 0 then .nan else if 0 < x then .negInf else .posInf
  | .posInf, .num y => if y = 0 then .nan else if 0 < y then .posInf else .negInf
  | .negInf, .num y => if y = 0 then .nan else if 0 < y then .negInf else .posInf
  | .posInf, .posInf => .posInf
  | .negInf, .negInf => .posInf
  | .posInf, .negInf => .negInf
  | .negInf, .posInf => .negInf

/-- JS division; the real zero is unsigned, so division of a nonzero value
by zero is modelled as JS division by positive zero. -/
noncomputable def jsDiv : JsNum → JsNum → JsNum
  | .nan, _ => .nan
  | _, .nan => .nan
  | .num x, .num y =>
    if y = 0 then (if x = 0 then .nan else if 0 < x then .posInf else .negInf)
    else .num (x / y)
  | .num _, .posInf => .num 0
  | .num _, .negInf => .num 0
  | .posInf, .num y => if y < 0 then .negInf else .posInf
  | .negInf, .num y => if y < 0 then .posInf else .negInf
  | .posInf, .posInf => .nan
  | .posInf, .negInf => .nan
  | .negInf, .posInf => .nan
  | .negInf, .negInf => .nan

/-- JS Math.log: NaN on negative arguments and NaN, negative infinity at
zero. -/
noncomputable def jsLog : JsNum → JsNum
  | .nan => .nan
  | .posInf => .posInf
  | .negInf => .nan
  | .num x =>
    if x < 0 then .nan else if x = 0 then .negInf else .num (Real.log x)

/-- JS Math.exp, idealized without float overflow. -/
noncomputable def jsExp : JsNum → JsNum
  | .nan => .nan
  | .posInf => .posInf
  | .negInf => .num 0
  | .num x => .num (Real.exp x)

/-- JS Math.min: NaN-absorbing. -/
noncomputable def jsMin : JsNum → JsNum → JsNum
  | .nan, _ => .nan
  | _, .nan => .nan
  | .num x, .num y => .num (min x y)
  | .negInf, _ => .negInf
  | _, .negInf => .negInf
  | .posInf, b => b
  | a, .posInf => a

/-- JS Math.max: NaN-absorbing. -/
noncomputable def jsMax : JsNum → JsNum → JsNum
  | .nan, _ => .nan
  | _, .nan => .nan
  | .num x, .num y => .num (max x y)
  | .posInf, _ => .posInf
  | _, .posInf => .posInf
  | .negInf, b => b
  | a, .negInf => a

/-- JS Math.round on the extended domain: NaN stays NaN. -/
noncomputable def jsRoundExt : JsNum → JsNum
  | .num x => .num ((⌊x + 1/2⌋ : ℤ) : ℝ)
  | .nan => .nan
  | .posInf => .posInf
  | .negInf => .negInf

/-- The JS comparison a <= b: false whenever either side is NaN. -/
def jsLe : JsNum → JsNum → Prop
  | .nan, _ => False
  | _, .nan => False
  | .num x, .num y => x ≤ y
  | .negInf, _ => True
  | _, .negInf => False
  | _, .posInf => True
  | .posInf, .num _ => False

/-- Line 442 clamp under JS semantics. -/
noncomputable def clampJs (v lo hi : JsNum) : JsNum := jsMax lo (jsMin hi v)

/-- A hazard index as actually computed: JS numbers, possibly NaN. -/
structure RiskIndexJs where
  center : JsNum
  low : JsNum
  high : JsNum

/-- Lines 496-497 and 518 under JS semantics. -/
noncomputable def mkIndexJs (c : JsNum) : RiskIndexJs :=
  ⟨jsRoundExt c,
    jsRoundExt (clampJs (jsSub c (.num 10)) (.num 0) (.num 100)),
    jsRoundExt (clampJs (jsAdd c (.num 10)) (.num 0) (.num 100))⟩

/-- Line 470 under JS semantics. -/
noncomputable def tmeanOfJs (temps : List JsNum) (tmax tmin : Option JsNum) :
    Option JsNum :=
  match temps with
  | [] =>
    match tmax, tmin with
    | some a, some b => some (jsDiv (jsAdd a b) (.num 2))
    | _, _ => none
  | _ => some (jsDiv (temps.foldl jsAdd (.num 0)) (.num temps.length))

/-- Lines 475-483 under JS semantics: the daily rh value reaches Math.log
unsanitized. -/
noncomputable def humidexJs (tmean rh : Option JsNum) : Option JsNum :=
  match tmean, rh with
  | some t, some r =>
    let a : JsNum := .num 17.27
    let b : JsNum := .num 237.7
    let alpha := jsAdd (jsDiv (jsMul a t) (jsAdd b t)) (jsLog (jsDiv r (.num 100)))
    let dew := jsDiv (jsMul b alpha) (jsSub a alpha)
    let e := jsMul (.num 6.11)
      (jsExp (jsMul (.num 5417.753)
        (jsSub (jsDiv (.num 1) (.num 273.16))
          (jsDiv (.num 1) (jsAdd (.num 273.15) dew)))))
    some (jsAdd t (jsMul (jsDiv (.num 5) (.num 9)) (jsSub e (.num 10))))
  | _, _ => none

/-- Line 495 under JS semantics: a NaN humidex is not null, so the logistic
runs on NaN rather than returning the absent-input center 0. -/
noncomputable def heatCenterJs : Option JsNum → JsNum
  | none => .num 0
  | some hx =>
    jsDiv (.num 100)
      (jsAdd (.num 1) (jsExp (jsDiv (jsNeg (jsSub hx (.num 35))) (.num 2.5))))

/-- The heat components of computeLocalRiskFallback (lines 459-461, 470,
475-483, 495-497, 518) under JS semantics, from the unsanitized daily
fields and the hourly temperature series. -/
noncomputable def heatPathJs (temps : List JsNum) (tmax tmin rh : Option JsNum) :
    RiskIndexJs :=
  mkIndexJs (heatCenterJs (humidexJs (tmeanOfJs temps tmax tmin) rh))

/-! # Lemmas and claim theorems -/

section Codec

lemma expectChars_append (k r : List Char) : expectChars k (k ++ r) = some r := by
  induction k with
  | nil => rfl
  | cons ch ks ih => simp [expectChars, ih]

lemma parseStr_quote (r : List Char) : parseStr ('"' :: r) = some ([], r) := by
  rw [parseStr.eq_def]; simp

lemma parseStr_esc (c2 : Char) (cs2 : List Char) :
    parseStr ('\\' :: c2 :: cs2) = (parseStr cs2).map fun p => (c2 :: p.1, p.2) := by
  rw [parseStr.eq_def]; simp

lemma parseStr_other (ch : Char) (cs : List Char) (h1 : ch ≠ '"') (h2 : ch ≠ '\\') :
    parseStr (ch :: cs) = (parseStr cs).map fun p => (ch :: p.1, p.2) := by
  rw [parseStr.eq_def]; simp [h1, h2]

lemma parseStr_escape (l r : List Char) :
    parseStr (escapeChars l ++ '"' :: r) = some (l, r) := by
  induction l with
  | nil => simpa [escapeChars] using parseStr_quote r
  | cons ch cs ih =>
    by_cases hch : ch = '"' ∨ ch = '\\'
    · simp [escapeChars, hch, parseStr_esc, ih]
    · obtain ⟨h1, h2⟩ := not_or.mp hch
      simp [escapeChars, hch, parseStr_other ch _ h1 h2, ih]

lemma digit_facts : ∀ d, d < 10 →
    isDigitCh (Char.ofNat (48 + d)) = true ∧
    digitVal (Char.ofNat (48 + d)) = d ∧
    (Char.ofNat (48 + d)).toNat < 256 ∧
    Char.ofNat (48 + d) ≠ '-' := by decide

lemma digitsLoop_spec (ds : List Nat) (hds : ∀ d ∈ ds, d < 10) (acc : Nat)
    (r : List Char) (hr : headNotDigit r) :
    digitsLoop (ds.map (fun d => Char.ofNat (48 + d)) ++ r) acc
      = (ds.foldl (fun a d => a * 10 + d) acc, r) := by
  induction ds generalizing acc with
  | nil =>
    cases r with
    | nil => rfl
    | cons ch cs => simpa [digitsLoop] using fun h => absurd h (by simpa [headNotDigit] using hr)
  | cons d ds ih =>
    have hd := hds d (List.mem_cons_self d ds)
    have hfacts := digit_facts d hd
    simp [digitsLoop, hfacts.1, hfacts.2.1,
      ih (fun x hx => hds x (List.mem_cons_of_mem d hx))]

lemma foldr_ofDigits (L : List Nat) :
    L.foldr (fun x y => y * 10 + x) 0 = Nat.ofDigits 10 L := by
  induction L with
  | nil => simp [Nat.ofDigits]
  | cons d L ih => simp [Nat.ofDigits, ih]; ring

lemma foldl_digits (n : Nat) :
    (Nat.digits 10 n).reverse.foldl (fun a d => a * 10 + d) 0 = n := by
  rw [List.foldl_reverse]
  simpa using (foldr_ofDigits (Nat.digits 10 n)).trans (Nat.ofDigits_digits 10 n)

lemma natChars_shape (n : Nat) :
    ∃ ds : List Nat, (∀ d ∈ ds, d < 10) ∧
      natChars n = ds.map (fun d => Char.ofNat (48 + d)) ∧
      ds.foldl (fun a d => a * 10 + d) 0 = n ∧ ds ≠ [] := by
  by_cases hn : n = 0
  · exact ⟨[0], by decide, by simp [natChars, hn], by simp [hn], by decide⟩
  · refine ⟨(Nat.digits 10 n).reverse, ?_, by simp [natChars, hn], foldl_digits n, ?_⟩
    · intro d hd
      exact Nat.digits_lt_base (by norm_num) (List.mem_reverse.mp hd)
    · simp [Nat.digits_ne_nil_iff_ne_zero, hn]

lemma parseNat_natChars (n : Nat) (r : List Char) (hr : headNotDigit r) :
    parseNat (natChars n ++ r) = some (n, r) := by
  obtain ⟨ds, hds, hshape, hfold, hne⟩ := natChars_shape n
  cases ds with
  | nil => exact absurd rfl hne
  | cons d ds =>
    have hd := hds d (List.mem_cons_self d ds)
    rw [hshape]
    simp only [List.map_cons, List.cons_append, parseNat, (digit_facts d hd).1,
      if_true]
    rw [show (Char.ofNat (48 + d) :: (ds.map (fun d => Char.ofNat (48 + d)) ++ r))
        = (d :: ds).map (fun d => Char.ofNat (48 + d)) ++ r by simp]
    rw [digitsLoop_spec (d :: ds) hds 0 r hr, hfold]

lemma parseInt_intChars (i : ℤ) (r : List Char) (hr : headNotDigit r) :
    parseInt (intChars i ++ r) = some (i, r) := by
  by_cases hi : i < 0
  · simp only [intChars, if_pos hi, List.cons_append, parseInt, if_pos rfl]
    rw [parseNat_natChars i.natAbs r hr]
    simp only [Option.map_some']
    rw [show -(i.natAbs : ℤ) = i by omega]
    simp
  · push_neg at hi
    simp only [intChars, if_neg (by omega : ¬i < 0)]
    obtain ⟨ds, hds, hshape, hfold, hne⟩ := natChars_shape i.toNat
    cases ds with
    | nil => exact absurd rfl hne
    | cons d ds =>
      have hd := hds d (List.mem_cons_self d ds)
      rw [hshape]
      simp only [List.map_cons, List.cons_append, parseInt,
        (digit_facts d hd).2.2.2, if_false]
      rw [show (Char.ofNat (48 + d) :: (ds.map (fun x => Char.ofNat (48 + x)) ++ r))
          = natChars i.toNat ++ r by rw [hshape]; simp]
      rw [parseNat_natChars i.toNat r hr]
      simp [Int.toNat_of_nonneg hi]

lemma headNotDigit_keyC (X : List Char) : headNotDigit (keyC ++ X) := by
  show isDigitCh ',' = false; decide

lemma headNotDigit_keyW (X : List Char) : headNotDigit (keyW ++ X) := by
  show isDigitCh ',' = false; decide

lemma headNotDigit_keyR (X : List Char) : headNotDigit (keyR ++ X) := by
  show isDigitCh ',' = false; decide

lemma headNotDigit_keyEnd : headNotDigit keyEnd := by
  show isDigitCh '\x7d' = false; decide

lemma parsePayload_json (p : SharePayload) :
    parsePayloadChars (jsonOfPayload p) = some p := by
  obtain ⟨d, h, c, w, r⟩ := p
  simp only [jsonOfPayload, List.append_assoc, List.cons_append]
  simp only [parsePayloadChars]
  rw [expectChars_append]
  simp only [Option.some_bind]
  rw [parseStr_escape]
  simp only [Option.some_bind]
  rw [expectChars_append]
  simp only [Option.some_bind]
  rw [parseInt_intChars _ _ (headNotDigit_keyC _)]
  simp only [Option.some_bind]
  rw [expectChars_append]
  simp only [Option.some_bind]
  rw [parseInt_intChars _ _ (headNotDigit_keyW _)]
  simp only [Option.some_bind]
  rw [expectChars_append]
  simp only [Option.some_bind]
  rw [parseInt_intChars _ _ (headNotDigit_keyR _)]
  simp only [Option.some_bind]
  rw [expectChars_append]
  simp only [Option.some_bind]
  rw [parseInt_intChars _ _ headNotDigit_keyEnd]
  simp only [Option.some_bind]
  rw [show expectChars keyEnd keyEnd = some [] by
    simpa using expectChars_append keyEnd []]
  simp only [Option.some_bind, if_true]

lemma charToSix_sixToChar : ∀ n, n < 64 → charToSix (sixToChar n) = some n := by
  decide

lemma sixToChar_ne_pad : ∀ n, n < 64 → (sixToChar n = '=') = False := by
  decide

lemma unb64_b64 (bs : List Nat) (hbs : ∀ x ∈ bs, x < 256) :
    unb64 (b64 bs) = some bs := by
  induction bs using b64.induct with
  | case1 => rfl
  | case2 a =>
    have ha : a < 256 := hbs a (by simp)
    simp only [b64, unb64]
    rw [charToSix_sixToChar (a / 4) (by omega),
      charToSix_sixToChar (a % 4 * 16) (by omega)]
    simp only [Option.some_bind]
    norm_num
    omega
  | case3 a b =>
    have ha : a < 256 := hbs a (by simp)
    have hb : b < 256 := hbs b (by simp)
    simp only [b64, unb64]
    rw [charToSix_sixToChar (a / 4) (by omega),
      charToSix_sixToChar (a % 4 * 16 + b / 16) (by omega)]
    simp only [Option.some_bind, sixToChar_ne_pad (b % 16 * 4) (by omega),
      if_false]
    rw [charToSix_sixToChar (b % 16 * 4) (by omega)]
    simp only [Option.some_bind]
    norm_num
    constructor <;> omega
  | case4 a b c rest ih =>
    have ha : a < 256 := hbs a (by simp)
    have hb : b < 256 := hbs b (by simp)
    have hc : c < 256 := hbs c (by simp)
    simp only [b64, unb64]
    rw [charToSix_sixToChar (a / 4) (by omega),
      charToSix_sixToChar (a % 4 * 16 + b / 16) (by omega)]
    simp only [Option.some_bind,
      sixToChar_ne_pad (b % 16 * 4 + c / 64) (by omega), if_false]
    rw [charToSix_sixToChar (b % 16 * 4 + c / 64) (by omega)]
    simp only [Option.some_bind, sixToChar_ne_pad (c % 64) (by omega), if_false]
    rw [charToSix_sixToChar (c % 64) (by omega)]
    simp only [Option.some_bind]
    rw [ih (fun x hx => hbs x (by simp [hx]))]
    simp only [Option.map_some', Option.some.injEq, List.cons.injEq,
      and_true]
    refine ⟨by omega, by omega, by omega⟩

lemma atob_btoa (s : List Char) (hs : ∀ ch ∈ s, ch.toNat < 256) :
    (btoa s).bind atob = some s := by
  have hall : (s.all fun ch => decide (ch.toNat < 256)) = true := by
    rw [List.all_eq_true]
    intro x hx
    exact decide_eq_true (hs x hx)
  simp only [btoa, hall, if_true, Option.some_bind, atob]
  rw [unb64_b64 (s.map Char.toNat) (by
    intro x hx
    obtain ⟨ch, hch, rfl⟩ := List.mem_map.mp hx
    exact hs ch hch)]
  simp [List.map_map, Function.comp_def, Char.ofNat_toNat]

lemma escapeChars_mem (ch : Char) (l : List Char) (h : ch ∈ escapeChars l) :
    ch = '\\' ∨ ch ∈ l := by
  induction l with
  | nil => simp [escapeChars] at h
  | cons x xs ih =>
    by_cases hx : x = '"' ∨ x = '\\'
    · simp only [escapeChars, if_pos hx, List.mem_cons] at h
      rcases h with rfl | rfl | h
      · exact Or.inl rfl
      · exact Or.inr (List.mem_cons_self _ _)
      · rcases ih h with h2 | h2
        · exact Or.inl h2
        · exact Or.inr (List.mem_cons_of_mem x h2)
    · simp only [escapeChars, if_neg hx, List.mem_cons] at h
      rcases h with rfl | h
      · exact Or.inr (List.mem_cons_self _ _)
      · rcases ih h with h2 | h2
        · exact Or.inl h2
        · exact Or.inr (List.mem_cons_of_mem x h2)

lemma natChars_mem (ch : Char) (n : Nat) (h : ch ∈ natChars n) :
    ch.toNat < 256 := by
  obtain ⟨ds, hds, hshape, -, -⟩ := natChars_shape n
  rw [hshape] at h
  obtain ⟨d, hd, rfl⟩ := List.mem_map.mp h
  exact (digit_facts d (hds d hd)).2.2.1

lemma intChars_mem (ch : Char) (i : ℤ) (h : ch ∈ intChars i) :
    ch.toNat < 256 := by
  by_cases hi : i < 0
  · simp only [intChars, if_pos hi, List.mem_cons] at h
    rcases h with rfl | h
    · decide
    · exact natChars_mem ch _ h
  · simp only [intChars, if_neg hi] at h
    exact natChars_mem ch _ h

lemma json_bytes (p : SharePayload) (hd : ∀ ch ∈ p.d.data, ch.toNat < 256) :
    ∀ ch ∈ jsonOfPayload p, ch.toNat < 256 := by
  intro ch h
  simp only [jsonOfPayload, List.append_assoc, List.cons_append,
    List.mem_append, List.mem_cons] at h
  rcases h with h | h | h | h | h | h | h | h | h | h | h | h
  · exact (by decide : ∀ k ∈ keyD, k.toNat < 256) ch h
  · rcases escapeChars_mem ch _ h with rfl | h2
    · decide
    · exact hd ch h2
  · subst h; decide
  · exact (by decide : ∀ k ∈ keyH, k.toNat < 256) ch h
  · exact intChars_mem ch _ h
  · exact (by decide : ∀ k ∈ keyC, k.toNat < 256) ch h
  · exact intChars_mem ch _ h
  · exact (by decide : ∀ k ∈ keyW, k.toNat < 256) ch h
  · exact intChars_mem ch _ h
  · exact (by decide : ∀ k ∈ keyR, k.toNat < 256) ch h
  · exact intChars_mem ch _ h
  · exact (by decide : ∀ k ∈ keyEnd, k.toNat < 256) ch h

end Codec

/-- C3: share-codec round trip: for four RiskIndex values with integer
centers in 0..100 and a date string (of latin1 characters, the domain of
btoa), decoding the encoded token restores the date and the four centers,
and the decoded bands are center - 10 and center + 10 clamped to 0..100. -/
theorem c3_share_roundtrip (idx : Indices) (date : String)
    (hdate : ∀ ch ∈ date.data, ch.toNat < 256)
    (hh : 0 ≤ idx.heat.center ∧ idx.heat.center ≤ 100)
    (hc : 0 ≤ idx.cold.center ∧ idx.cold.center ≤ 100)
    (hw : 0 ≤ idx.wind.center ∧ idx.wind.center ≤ 100)
    (hr : 0 ≤ idx.wet.center ∧ idx.wet.center ≤ 100) :
    (encodeShare idx date).bind decodeShare =
      some ⟨date,
        ⟨⟨idx.heat.center, clamp100 (idx.heat.center - 10),
            clamp100 (idx.heat.center + 10)⟩,
          ⟨idx.cold.center, clamp100 (idx.cold.center - 10),
            clamp100 (idx.cold.center + 10)⟩,
          ⟨idx.wind.center, clamp100 (idx.wind.center - 10),
            clamp100 (idx.wind.center + 10)⟩,
          ⟨idx.wet.center, clamp100 (idx.wet.center - 10),
            clamp100 (idx.wet.center + 10)⟩⟩⟩ := by
  have hbytes : ∀ ch ∈ jsonOfPayload
      ⟨date, idx.heat.center, idx.cold.center, idx.wind.center,
        idx.wet.center⟩, ch.toNat < 256 :=
    json_bytes _ hdate
  have hb := atob_btoa _ hbytes
  cases hbt : btoa (jsonOfPayload
      ⟨date, idx.heat.center, idx.cold.center, idx.wind.center,
        idx.wet.center⟩) with
  | none => rw [hbt] at hb; simp at hb
  | some tokL =>
    rw [hbt] at hb
    simp only [Option.some_bind] at hb
    simp only [encodeShare, hbt, Option.map_some', Option.some_bind,
      decodeShare]
    rw [hb]
    simp only [Option.some_bind]
    rw [parsePayload_json]
    simp only [Option.map_some', Option.some.injEq, decodeIndices, clamp100,
      DecodedShare.mk.injEq, Indices.mk.injEq, RiskIndex.mk.injEq]
    and_intros
    all_goals first
    | exact trivial
    | omega

/-- C3 witness: the round trip at the concrete indices (97, 3, 55, 0) and
date 2025-01-01, every hypothesis discharged by decide. -/
theorem c3_share_roundtrip_witness :
    (encodeShare ⟨⟨97, 87, 100⟩, ⟨3, 0, 13⟩, ⟨55, 45, 65⟩, ⟨0, 0, 10⟩⟩
        "2025-01-01").bind decodeShare =
      some ⟨"2025-01-01",
        ⟨⟨97, clamp100 (97 - 10), clamp100 (97 + 10)⟩,
          ⟨3, clamp100 (3 - 10), clamp100 (3 + 10)⟩,
          ⟨55, clamp100 (55 - 10), clamp100 (55 + 10)⟩,
          ⟨0, clamp100 (0 - 10), clamp100 (0 + 10)⟩⟩⟩ :=
  c3_share_roundtrip _ _ (by decide) (by decide) (by decide) (by decide)
    (by decide)

/-- C10: for every parsed share payload, the decoder rebuilds each hazard
index with center equal to the stored value (no range validation), low
equal to max 0 (center - 10) and high equal to min 100 (center + 10); thus
low is at least 0 and high at most 100 always, while the center lies in
0..100 only when the stored value already did. -/
theorem c10_decode_reconstruction (p : SharePayload) :
    decodedFieldOk p.h (decodeIndices p).heat ∧
    decodedFieldOk p.c (decodeIndices p).cold ∧
    decodedFieldOk p.w (decodeIndices p).wind ∧
    decodedFieldOk p.r (decodeIndices p).wet := by
  obtain ⟨d, h, c, w, r⟩ := p
  refine ⟨?_, ?_, ?_, ?_⟩ <;>
    · simp only [decodedFieldOk, decodeIndices]
      and_intros <;>
        first
        | exact trivial
        | omega

/-- C4: merge precedence for temperature, humidity, wind and UV: when the
live current-conditions value is present the merged value is the live one
regardless of the other tiers, and the reanalysis tier is consulted only
when the live tiers are absent; in particular live temperature 30 with
reanalysis temperature 20 merges to 30. -/
theorem c4_merge_precedence (v : ℚ) (oe power : Option ℚ) :
    mergeTemp (some v) oe power = some (jsRoundQ v) ∧
    mergeHumidity (some v) oe power = some (jsRoundQ v) ∧
    mergeWind (some v) oe power = some v ∧
    (∀ daily hourly : Option ℚ,
      mergeUv (some v) oe daily hourly = some (jsRoundQ v)) ∧
    mergeTemp none none power = power.map jsRoundQ ∧
    mergeHumidity none none power = power.map jsRoundQ ∧
    mergeWind none none power = power ∧
    (∀ hourly : Option ℚ,
      mergeUv none none (some v) hourly = some (jsRoundQ v)) ∧
    mergeTemp (some 30) oe (some 20) = some 30 := by
  refine ⟨rfl, rfl, rfl, fun _ _ => rfl, rfl, rfl, rfl, fun _ => rfl, ?_⟩
  show some (jsRoundQ 30) = some 30
  norm_num [jsRoundQ]

/-- C5: the sanitizer maps a raw reanalysis value to absent exactly when it
is one of the sentinels -999 or -5994, passes every other value through
unchanged, and is a total function (absent in, absent out; no failure). -/
theorem c5_sanitizer (v : ℚ) :
    (sanitizePower (some v) = none ↔ v = -999 ∨ v = -5994) ∧
    (sanitizePower (some v) = some v ↔ ¬(v = -999 ∨ v = -5994)) ∧
    sanitizePower none = none := by
  by_cases h : v = -999 ∨ v = -5994
  · have hb : isInvalidPowerValue v = true := by
      simp only [isInvalidPowerValue, Bool.or_eq_true, beq_iff_eq]
      exact h
    refine ⟨?_, ?_, rfl⟩ <;> simp [sanitizePower, hb, h]
  · have hb : isInvalidPowerValue v = false := by
      simp only [isInvalidPowerValue, Bool.or_eq_false_iff, beq_eq_false_iff_ne,
        ne_eq]
      exact not_or.mp h
    refine ⟨?_, ?_, rfl⟩ <;> simp [sanitizePower, hb, h]

/-- C6: each hazard center is the spec logistic curve at the documented
threshold and scale pairs: heat at (35, 2.5) on the apparent-heat metric,
cold at (0, 2.5) on 5 minus the apparent-cold metric, wind at (10, 1.5) on
wind speed, wet at (2, 2) on daily precipitation; stated for present
metrics. -/
theorem c6_logistic_table (m wc w p : ℝ) :
    heatCenter (some m) = logisticSpec m 35 2.5 ∧
    coldCenter (some wc) = logisticSpec (5 - wc) 0 2.5 ∧
    windCenter w = logisticSpec w 10 1.5 ∧
    wetCenter (some p) = logisticSpec p 2 2 := by
  refine ⟨?_, ?_, ?_, ?_⟩ <;>
    simp only [heatCenter, coldCenter, coldMetric, windCenter, wetCenter,
      logisticSpec, neg_div]

/-- C7: the wind-chill formula is applied only when the temperature is at
most 10 degrees C and the wind speed exceeds 4.8 km/h; in every other case
the apparent-cold metric equals the raw temperature. -/
theorem c7_wind_chill_gate (t w : ℝ) :
    (¬(t ≤ 10 ∧ w * 3.6 > 4.8) → windChill (some t) w = some t) ∧
    ((t ≤ 10 ∧ w * 3.6 > 4.8) → windChill (some t) w = some (windChillValue t w)) := by
  constructor
  · intro h
    have hcond : t > 10 ∨ w * 3.6 ≤ 4.8 := by
      by_cases h1 : t ≤ 10
      · exact Or.inr (by push_neg at h; exact h h1)
      · exact Or.inl (lt_of_not_le h1)
    simp [windChill, if_pos hcond]
  · rintro ⟨h1, h2⟩
    have hcond : ¬(t > 10 ∨ w * 3.6 ≤ 4.8) := by
      push_neg
      exact ⟨h1, h2⟩
    simp [windChill, if_neg hcond]

/-- C7 witness: at temperature 20 and wind 1 m/s the gate does not fire and
the metric is the raw temperature. -/
theorem c7_wind_chill_gate_witness : windChill (some 20) 1 = some 20 :=
  (c7_wind_chill_gate 20 1).1 (by norm_num)

lemma jsRound_zero : jsRound 0 = 0 := by
  rw [jsRound, Int.floor_eq_iff]
  norm_num

section NanPath

lemma jsAdd_nan_left (b : JsNum) : jsAdd .nan b = .nan := by cases b <;> rfl

lemma jsAdd_nan_right (a : JsNum) : jsAdd a .nan = .nan := by cases a <;> rfl

lemma jsNeg_nan : jsNeg .nan = .nan := rfl

lemma jsSub_nan_left (b : JsNum) : jsSub .nan b = .nan := by
  rw [jsSub, jsAdd_nan_left]

lemma jsSub_nan_right (a : JsNum) : jsSub a .nan = .nan := by
  rw [jsSub, jsNeg_nan, jsAdd_nan_right]

lemma jsMul_nan_left (b : JsNum) : jsMul .nan b = .nan := by cases b <;> rfl

lemma jsMul_nan_right (a : JsNum) : jsMul a .nan = .nan := by cases a <;> rfl

lemma jsDiv_nan_left (b : JsNum) : jsDiv .nan b = .nan := by cases b <;> rfl

lemma jsDiv_nan_right (a : JsNum) : jsDiv a .nan = .nan := by cases a <;> rfl

lemma jsMin_nan_right (a : JsNum) : jsMin a .nan = .nan := by cases a <;> rfl

lemma jsMax_nan_right (a : JsNum) : jsMax a .nan = .nan := by cases a <;> rfl

lemma jsExp_nan : jsExp .nan = .nan := rfl

lemma jsRoundExt_nan : jsRoundExt .nan = .nan := rfl

lemma tmeanOfJs_single : tmeanOfJs [.num 15] none none = some (.num 15) := by
  simp only [tmeanOfJs, List.foldl, List.length, jsAdd, jsDiv]
  norm_num

lemma humidexJs_sentinel :
    humidexJs (some (.num 15)) (some (.num (-999))) = some JsNum.nan := by
  have hdiv : jsDiv (.num (-999)) (.num 100) = .num ((-999 : ℝ)/100) := by
    simp only [jsDiv]
    rw [if_neg (by norm_num : ¬(100 : ℝ) = 0)]
  have hlog : jsLog (.num ((-999 : ℝ)/100)) = .nan := by
    simp only [jsLog]
    rw [if_pos (by norm_num : ((-999 : ℝ)/100) < 0)]
  simp only [humidexJs, hdiv, hlog, jsAdd_nan_right, jsMul_nan_right,
    jsSub_nan_left, jsSub_nan_right, jsDiv_nan_left, jsDiv_nan_right,
    jsExp_nan]

lemma heatCenterJs_nan : heatCenterJs (some JsNum.nan) = JsNum.nan := by
  simp only [heatCenterJs, jsSub_nan_left, jsNeg_nan, jsDiv_nan_left,
    jsExp_nan, jsAdd_nan_right, jsDiv_nan_right]

lemma mkIndexJs_nan :
    mkIndexJs JsNum.nan = ⟨JsNum.nan, JsNum.nan, JsNum.nan⟩ := by
  simp only [mkIndexJs, clampJs, jsSub_nan_left, jsAdd_nan_left,
    jsMin_nan_right, jsMax_nan_right, jsRoundExt_nan]

end NanPath

/-- C1: code bug. The invariant 0 <= low <= center <= high <= 100 is the
spec's stated intent, but computeLocalRiskFallback reads the POWER daily
fields unsanitized, so the sentinel RH2M = -999 reaches Math.log, which is
NaN on negatives; the NaN propagates to the whole heat index, and the JS
comparison 0 <= low is then false. Evaluated here at hourly temperatures
[15] with every other input absent and rh = -999. -/
theorem c1_nan_heat_violation :
    heatPathJs [.num 15] none none (some (.num (-999)))
      = ⟨JsNum.nan, JsNum.nan, JsNum.nan⟩ ∧
    ¬ jsLe (.num 0) (heatPathJs [.num 15] none none (some (.num (-999)))).low := by
  have hval : heatPathJs [.num 15] none none (some (.num (-999)))
      = ⟨JsNum.nan, JsNum.nan, JsNum.nan⟩ := by
    rw [heatPathJs, tmeanOfJs_single, humidexJs_sentinel, heatCenterJs_nan,
      mkIndexJs_nan]
  refine ⟨hval, ?_⟩
  rw [hval]
  exact fun h => h

section ExpBounds

lemma jsRound_eq_of {x : ℝ} {n : ℤ} (h1 : (n : ℝ) ≤ x + 1/2)
    (h2 : x + 1/2 < n + 1) : jsRound x = n := by
  rw [jsRound, Int.floor_eq_iff]
  exact ⟨h1, by linarith⟩

lemma two_le_exp_one : (2 : ℝ) ≤ Real.exp 1 := by
  have := Real.exp_one_gt_d9
  linarith

lemma exp_eight_ge : (199 : ℝ) ≤ Real.exp 8 := by
  have h3 : Real.exp 8 = Real.exp 1 ^ (8 : ℕ) := by
    rw [← Real.exp_nat_mul]
    norm_num
  have h2 : (2 : ℝ) ^ (8 : ℕ) ≤ Real.exp 1 ^ (8 : ℕ) :=
    pow_le_pow_left₀ (by norm_num) two_le_exp_one 8
  rw [h3]
  norm_num at h2
  linarith

lemma cold_absent_center : coldCenter none = 100 / (1 + Real.exp (-8)) := by
  rw [coldCenter, coldMetric]
  norm_num

lemma cold_absent_center_bounds :
    99.5 ≤ 100 / (1 + Real.exp (-8)) ∧ 100 / (1 + Real.exp (-8)) < 100 := by
  have hp : (0 : ℝ) < Real.exp (-8) := Real.exp_pos _
  have h199 : Real.exp (-8) ≤ 1 / 199 := by
    rw [Real.exp_neg, inv_eq_one_div, div_le_div_iff₀ (Real.exp_pos 8)
      (by norm_num)]
    linarith [exp_eight_ge]
  constructor
  · rw [le_div_iff₀ (by positivity)]
    nlinarith
  · rw [div_lt_iff₀ (by positivity)]
    nlinarith

end ExpBounds

/-- C2 counterexample: with every input absent the cold hazard metric is
defaulted to 20, so the cold center is 100 rather than the claimed 0. -/
theorem c2_absent_cold_counterexample :
    (computeLocalRiskFallback none none none none [] []).cold.center ≠ 0 ∧
    (computeLocalRiskFallback none none none none [] []).cold.center = 100 := by
  have hval : (computeLocalRiskFallback none none none none [] []).cold.center
      = jsRound (100 / (1 + Real.exp (-8))) := by
    simp only [computeLocalRiskFallback, mkIndex, tmeanOf, windChill,
      Option.map_none', cold_absent_center]
  have hb := cold_absent_center_bounds
  have h100 : jsRound (100 / (1 + Real.exp (-8))) = 100 :=
    jsRound_eq_of (by push_cast; linarith [hb.1]) (by push_cast; linarith [hb.2])
  rw [hval, h100]
  exact ⟨by norm_num, rfl⟩

section AbsentInputs

lemma mkIndex_zero : mkIndex 0 = ⟨0, 0, 10⟩ := by
  have hlo : clamp (0 - 10 : ℝ) 0 100 = 0 := by
    rw [clamp, min_eq_right (by norm_num : (0 - 10 : ℝ) ≤ 100),
      max_eq_left (by norm_num : (0 - 10 : ℝ) ≤ 0)]
  have hhi : clamp (0 + 10 : ℝ) 0 100 = 10 := by
    rw [clamp, min_eq_right (by norm_num : (0 + 10 : ℝ) ≤ 100),
      max_eq_right (by norm_num : (0 : ℝ) ≤ 0 + 10)]
    norm_num
  simp only [mkIndex, RiskIndex.mk.injEq, hlo, hhi]
  refine ⟨jsRound_zero, jsRound_zero, ?_⟩
  exact jsRound_eq_of (by norm_num) (by norm_num)

lemma humidex_rh_none (tmean : Option ℝ) : humidex tmean none = none := by
  cases tmean <;> rfl

lemma cold_absent_index :
    mkIndex (coldCenter none) = ⟨100, 90, 100⟩ := by
  obtain ⟨hb1, hb2⟩ := cold_absent_center_bounds
  rw [cold_absent_center]
  have hlo : clamp (100 / (1 + Real.exp (-8)) - 10) 0 100
      = 100 / (1 + Real.exp (-8)) - 10 := by
    rw [clamp, min_eq_right (by linarith), max_eq_right (by linarith)]
  have hhi : clamp (100 / (1 + Real.exp (-8)) + 10) 0 100 = 100 := by
    rw [clamp, min_eq_left (by linarith), max_eq_right (by norm_num)]
  simp only [mkIndex, RiskIndex.mk.injEq, hlo, hhi]
  refine ⟨?_, ?_, ?_⟩
  · exact jsRound_eq_of (by push_cast; linarith) (by push_cast; linarith)
  · exact jsRound_eq_of (by push_cast; linarith) (by push_cast; linarith)
  · exact jsRound_eq_of (by norm_num) (by norm_num)

end AbsentInputs

/-- C2 as amended: an absent apparent-heat metric (in particular absent
humidity, regardless of temperature) and an absent precipitation each give
center 0 with the default band 0..10; but an absent temperature defaults the
cold metric to 20, giving a cold index of center 100 with band 90..100, and
an absent wind series is silently replaced by the default wind speed of
3.5 m/s rather than yielding center 0. -/
theorem c2_absent_inputs_amended :
    (∀ (tmax tmin prec : Option ℝ) (temps winds : List ℝ),
      (computeLocalRiskFallback tmax tmin none prec temps winds).heat
        = ⟨0, 0, 10⟩) ∧
    (∀ (tmax tmin rh : Option ℝ) (temps winds : List ℝ),
      (computeLocalRiskFallback tmax tmin rh none temps winds).wet
        = ⟨0, 0, 10⟩) ∧
    (∀ (rh prec : Option ℝ) (winds : List ℝ),
      (computeLocalRiskFallback none none rh prec [] winds).cold
        = ⟨100, 90, 100⟩) ∧
    windMsOf [] = 3.5 ∧
    (∀ (tmax tmin rh prec : Option ℝ) (temps : List ℝ),
      (computeLocalRiskFallback tmax tmin rh prec temps []).wind
        = mkIndex (windCenter 3.5)) := by
  refine ⟨?_, ?_, ?_, rfl, ?_⟩
  · intro tmax tmin prec temps winds
    simp only [computeLocalRiskFallback, humidex_rh_none, heatCenter]
    exact mkIndex_zero
  · intro tmax tmin rh temps winds
    simp only [computeLocalRiskFallback, wetCenter]
    exact mkIndex_zero
  · intro rh prec winds
    simp only [computeLocalRiskFallback, tmeanOf, windChill, Option.map_none']
    exact cold_absent_index
  · intro tmax tmin rh prec temps
    simp only [computeLocalRiskFallback, windMsOf]

section WindScenario

lemma exp_third_bounds :
    (25/18 : ℝ) < Real.exp (1/3) ∧ Real.exp (1/3) < 7/5 := by
  have hcube : Real.exp (1/3 : ℝ) ^ (3 : ℕ) = Real.exp 1 := by
    rw [← Real.exp_nat_mul]
    norm_num
  have hpos : (0 : ℝ) < Real.exp (1/3) := Real.exp_pos _
  constructor
  · by_contra hle
    push_neg at hle
    have h3 : Real.exp (1/3 : ℝ) ^ (3 : ℕ) ≤ (25/18 : ℝ) ^ (3 : ℕ) :=
      pow_le_pow_left₀ hpos.le hle 3
    rw [hcube] at h3
    have := Real.exp_one_gt_d9
    norm_num at h3
    linarith
  · by_contra hge
    push_neg at hge
    have h3 : (7/5 : ℝ) ^ (3 : ℕ) ≤ Real.exp (1/3 : ℝ) ^ (3 : ℕ) :=
      pow_le_pow_left₀ (by norm_num) hge 3
    rw [hcube] at h3
    have := Real.exp_one_lt_d9
    norm_num at h3
    linarith

lemma exp_ten_thirds_bounds :
    (193/7 : ℝ) < Real.exp (10/3) ∧ Real.exp (10/3) < 39 := by
  have hsplit : Real.exp (10/3 : ℝ) = Real.exp 1 ^ (3 : ℕ) * Real.exp (1/3) := by
    rw [← Real.exp_nat_mul, ← Real.exp_add]
    norm_num
  have h13 := exp_third_bounds
  have hgt := Real.exp_one_gt_d9
  have hlt := Real.exp_one_lt_d9
  have hpos1 : (0 : ℝ) < Real.exp 1 := Real.exp_pos 1
  constructor
  · rw [hsplit]
    have hc : (2.7182818283 : ℝ) ^ (3 : ℕ) ≤ Real.exp 1 ^ (3 : ℕ) :=
      pow_le_pow_left₀ (by norm_num) hgt.le 3
    have hm : (2.7182818283 : ℝ) ^ (3 : ℕ) * (25/18)
        ≤ Real.exp 1 ^ (3 : ℕ) * Real.exp (1/3) :=
      mul_le_mul hc h13.1.le (by norm_num) (pow_nonneg hpos1.le 3)
    have hnum : (193/7 : ℝ) < (2.7182818283 : ℝ) ^ (3 : ℕ) * (25/18) := by
      norm_num
    linarith
  · rw [hsplit]
    have hc : Real.exp 1 ^ (3 : ℕ) ≤ (2.7182818286 : ℝ) ^ (3 : ℕ) :=
      pow_le_pow_left₀ hpos1.le hlt.le 3
    have hm : Real.exp 1 ^ (3 : ℕ) * Real.exp (1/3)
        ≤ (2.7182818286 : ℝ) ^ (3 : ℕ) * (7/5) :=
      mul_le_mul hc h13.2.le (Real.exp_pos _).le (by positivity)
    have hnum : (2.7182818286 : ℝ) ^ (3 : ℕ) * (7/5) < 39 := by norm_num
    linarith

lemma windCenter_at_fifteen : jsRound (windCenter 15) = 97 := by
  have harg : windCenter 15 = 100 / (1 + (Real.exp (10/3 : ℝ))⁻¹) := by
    rw [windCenter, show (-(15 - 10) / 1.5 : ℝ) = -(10/3) by norm_num,
      Real.exp_neg]
  have hE := exp_ten_thirds_bounds
  have hEpos : (0 : ℝ) < Real.exp (10/3) := Real.exp_pos _
  have hinvlt : (Real.exp (10/3 : ℝ))⁻¹ < 7/193 := by
    rw [inv_eq_one_div, div_lt_iff₀ hEpos]
    nlinarith [hE.1]
  have hinvgt : (1/39 : ℝ) < (Real.exp (10/3 : ℝ))⁻¹ := by
    rw [inv_eq_one_div, lt_div_iff₀ hEpos]
    nlinarith [hE.2]
  have hpos : (0 : ℝ) < 1 + (Real.exp (10/3 : ℝ))⁻¹ := by positivity
  rw [harg]
  have hge : (96.5 : ℝ) ≤ 100 / (1 + (Real.exp (10/3 : ℝ))⁻¹) := by
    rw [le_div_iff₀ hpos]
    nlinarith
  have hlt : 100 / (1 + (Real.exp (10/3 : ℝ))⁻¹) < 97.5 := by
    rw [div_lt_iff₀ hpos]
    nlinarith
  exact jsRound_eq_of (by push_cast; linarith) (by push_cast; linarith)

lemma windCenter_at_five : jsRound (windCenter 5) = 3 := by
  have harg : windCenter 5 = 100 / (1 + Real.exp (10/3 : ℝ)) := by
    rw [windCenter, show (-(5 - 10) / 1.5 : ℝ) = 10/3 by norm_num]
  have hE := exp_ten_thirds_bounds
  have hpos : (0 : ℝ) < 1 + Real.exp (10/3 : ℝ) := by positivity
  rw [harg]
  have hge : (2.5 : ℝ) ≤ 100 / (1 + Real.exp (10/3 : ℝ)) := by
    rw [le_div_iff₀ hpos]
    nlinarith [hE.2]
  have hlt : 100 / (1 + Real.exp (10/3 : ℝ)) < 3.5 := by
    rw [div_lt_iff₀ hpos]
    nlinarith [hE.1]
  exact jsRound_eq_of (by push_cast; linarith) (by push_cast; linarith)

end WindScenario

/-- C9 counterexample: the rounded wind center at 15 m/s is 97, not the
claimed approximately 94, and at 5 m/s it is 3, not approximately 10. -/
theorem c9_wind_scenario_counterexample :
    jsRound (windCenter 15) ≠ 94 ∧ jsRound (windCenter 5) ≠ 10 := by
  rw [windCenter_at_fifteen, windCenter_at_five]
  norm_num

/-- C9 as amended: a wind speed of 15 m/s maps through the wind logistic
curve to a center of about 96.6, which rounds to 97, and a wind speed of
5 m/s maps to about 3.4, which rounds to 3. -/
theorem c9_wind_scenario_amended :
    jsRound (windCenter 15) = 97 ∧ jsRound (windCenter 5) = 3 :=
  ⟨windCenter_at_fifteen, windCenter_at_five⟩

/-- C8 counterexample: the synthetic generator is not a deterministic
function of latitude, longitude and date: with all real fetches failed and
identical coordinates and date, two runs whose Math.random() streams differ
produce different wind-speed fields, so the outputs differ. -/
theorem c8_synthetic_nondeterminism_counterexample :
    fetchPowerHourly none "20250101" 0 0 (fun _ => 0)
      ≠ fetchPowerHourly none "20250101" 0 0 (fun _ => (1 : ℝ)/2) := by
  intro h
  have hws := congrArg PowerParams.WS10M h
  simp only [fetchPowerHourly, generateMockPowerData] at hws
  have h0 := congrArg (fun l => l[0]?) hws
  simp only [List.getElem?_map, List.getElem?_range] at h0
  norm_num [Prod.ext_iff] at h0

/-- C8 as amended: when the real fetch fails, fetchPowerHourly still
succeeds by returning the synthetic generator's output; the synthetic
temperature, humidity and UV fields are deterministic in latitude,
longitude and date (identical across runs with different random streams),
but wind speed and precipitation depend on the Math.random() stream, and
no usedSyntheticFallback marker exists in the result shape. -/
theorem c8_synthetic_fallback_amended (startDate : String) (lat lon : ℝ)
    (r1 r2 : Nat → ℝ) :
    fetchPowerHourly none startDate lat lon r1
      = generateMockPowerData startDate lat lon r1 ∧
    (generateMockPowerData startDate lat lon r1).T2M
      = (generateMockPowerData startDate lat lon r2).T2M ∧
    (generateMockPowerData startDate lat lon r1).RH2M
      = (generateMockPowerData startDate lat lon r2).RH2M ∧
    (generateMockPowerData startDate lat lon r1).UV
      = (generateMockPowerData startDate lat lon r2).UV :=
  ⟨rfl, rfl, rfl, rfl⟩

end ClimaSphere
